import Mathlib

/-
Verification of preview-server.py (SmartMeter Dashboard Preview Server).

The script binds a TCP listening socket on a fixed port, serves files from
the directory containing the script via the standard library file-serving
handler, and maps the exceptions reaching main to console output and exit
codes.  The definitions below embed that behavior: paths are lists of
components, the filesystem is a partial map from paths to file bytes, and
the try/except structure of main becomes a total function from the
exception terminating the try block to the observable outcome.
-/

namespace PreviewServer

/-- Filesystem paths, modelled as lists of path components. -/
abbrev FsPath := List String

/-- Module-level constant PORT = 8080 (preview-server.py line 13). -/
def PORT : Nat := 8080

/-- Parent of a path, as in Path(...).parent: drop the final component. -/
def parent (p : FsPath) : FsPath := p.dropLast

/-- Module-level constant DIRECTORY = Path(__file__).parent (line 14): the
directory containing the script file, independent of the working
directory. -/
def DIRECTORY (scriptFile : FsPath) : FsPath := parent scriptFile

/-- The listening address and served directory that main fixes: host and
port passed to TCPServer (line 47) and the directory CustomHandler passes
to the stdlib handler (line 18). -/
structure ServerConfig where
  host : String
  port : Nat
  directory : FsPath

/-- The configuration main uses on a run of the program.  The script path
determines DIRECTORY at module load; the working directory and the
command-line arguments appear nowhere in the code, so they are ignored. -/
def mainConfig (scriptFile : FsPath) (cwd : FsPath) (argv : List String) :
    ServerConfig :=
  ⟨"", PORT, DIRECTORY scriptFile⟩

/-- The exceptions the try block in main (lines 46-60) distinguishes:
KeyboardInterrupt, OSError (carrying errno and its message string), and
every other exception (carried opaquely by name). -/
inductive PyExc where
  | keyboardInterrupt : PyExc
  | osError (errno : Int) (msg : String) : PyExc
  | otherExc (name : String) : PyExc

/-- Observable outcome of main: the lines printed by the exception
handlers, the code passed to sys.exit when one of the two handlers runs,
the exception that escapes main when neither does, and whether the
listening socket is no longer held (the with statement closes the server
on every way out of the block, and a failed bind never holds the port). -/
structure MainResult where
  printed : List String
  exitCode : Option Nat
  uncaughtExc : Option PyExc
  serverClosed : Bool

/-- Line printed by the KeyboardInterrupt handler (line 52). -/
def stopMsg : String := "\n\n⏹  Server stopped"

/-- First line of the address-in-use guidance (line 56). -/
def portInUseMsg : String :=
  "\n❌ Error: Port " ++ toString PORT ++ " is already in use"

/-- Second line of the address-in-use guidance (line 57). -/
def killHintMsg : String :=
  "   Try: lsof -ti:" ++ toString PORT ++ " | xargs kill -9"

/-- Line printed for every other OSError (line 59), interpolating the
message of the exception. -/
def genericErrorMsg (msg : String) : String := "\n❌ Error: " ++ msg

/-- Lines printed by the except OSError handler (lines 54-59): the errno
is compared with the literal 48, and only on equality is the two-line
port guidance emitted. -/
def osErrorLines (errno : Int) (msg : String) : List String :=
  if errno = 48 then [portInUseMsg, killHintMsg]
  else [genericErrorMsg msg]

/-- Behavior of main when exception e terminates the try block.  The
serve_forever loop never returns normally, so every run of main ends in
some exception: KeyboardInterrupt exits 0 after the stop message, OSError
exits 1 after its handler output, and anything else escapes uncaught with
neither handler running. -/
def runMain (e : PyExc) : MainResult :=
  match e with
  | PyExc.keyboardInterrupt => ⟨[stopMsg], some 0, none, true⟩
  | PyExc.osError errno msg => ⟨osErrorLines errno msg, some 1, none, true⟩
  | PyExc.otherExc n => ⟨[], none, some (PyExc.otherExc n), true⟩

/-- An HTTP response: status code and body bytes. -/
structure HttpResponse where
  status : Nat
  body : List Nat

/-- A filesystem: maps an absolute path to the bytes of the regular file
there, or none when no such file exists. -/
abbrev FileSystem := FsPath → Option (List Nat)

/-- Body of the standard stdlib 404 error page; its exact content is
irrelevant to the claims. -/
def notFoundBody : List Nat := []

/-- Modelled from the spec: the GET behavior of
http.server.SimpleHTTPRequestHandler, which is Python standard library
code and not part of this repository.  Per the spec, a request path is
resolved under the configured directory; an existing file is returned
with status 200 and its exact bytes, and a path with no file gets the
standard not-found (404) response. -/
def handleGet (fs : FileSystem) (directory : FsPath) (reqPath : FsPath) :
    HttpResponse :=
  match fs (directory ++ reqPath) with
  | some bytes => ⟨200, bytes⟩
  | none => ⟨404, notFoundBody⟩

/-- CustomHandler (lines 16-18) forwards to the stdlib handler with
directory = str(DIRECTORY), so GET requests resolve against the directory
containing the script. -/
def customHandlerGet (scriptFile : FsPath) (fs : FileSystem)
    (reqPath : FsPath) : HttpResponse :=
  handleGet fs (DIRECTORY scriptFile) reqPath

/-- Claim C1: main listens on TCP port 8080 on all interfaces (empty host
string) and serves files from the directory containing the script, for
every invocation of main and regardless of the current working
directory. -/
theorem c1_fixed_binding (scriptFile cwd cwd2 : FsPath)
    (argv : List String) :
    mainConfig scriptFile cwd argv = mainConfig scriptFile cwd2 argv ∧
    (mainConfig scriptFile cwd argv).host = "" ∧
    (mainConfig scriptFile cwd argv).port = 8080 ∧
    (mainConfig scriptFile cwd argv).directory = parent scriptFile :=
  ⟨rfl, rfl, rfl, rfl⟩

/-- Claim C2: when KeyboardInterrupt is raised while the server runs, main
prints the stop message, exits with code 0, and the listening socket has
been closed (the with statement closed the server before the handler
ran). -/
theorem c2_keyboard_interrupt :
    (runMain PyExc.keyboardInterrupt).printed = [stopMsg] ∧
    (runMain PyExc.keyboardInterrupt).exitCode = some 0 ∧
    (runMain PyExc.keyboardInterrupt).serverClosed = true :=
  ⟨rfl, rfl, rfl⟩

/-- Claim C3: when the bind fails because the port is already in use
(OSError with errno 48, the value the code identifies with address-in-use
on line 55), main prints the two-line guidance naming port 8080 and the
process exits with code 1. -/
theorem c3_addr_in_use (msg : String) :
    (runMain (PyExc.osError 48 msg)).exitCode = some 1 ∧
    (runMain (PyExc.osError 48 msg)).printed = [portInUseMsg, killHintMsg] :=
  ⟨rfl, by simp [runMain, osErrorLines]⟩

/-- Claim C4: every OSError whose errno differs from 48 has its message
printed via the generic error line and the process exits with code 1. -/
theorem c4_other_oserror (errno : Int) (msg : String) (h : errno ≠ 48) :
    (runMain (PyExc.osError errno msg)).exitCode = some 1 ∧
    (runMain (PyExc.osError errno msg)).printed = [genericErrorMsg msg] :=
  ⟨rfl, by simp [runMain, osErrorLines, h]⟩

/-- Witness for C4 at the concrete Linux address-in-use errno 98. -/
theorem c4_other_oserror_witness :
    (98 : Int) ≠ 48 ∧
    ((runMain (PyExc.osError 98 "[Errno 98] Address already in use")).exitCode
        = some 1 ∧
      (runMain (PyExc.osError 98 "[Errno 98] Address already in use")).printed
        = [genericErrorMsg "[Errno 98] Address already in use"]) :=
  ⟨by decide,
    c4_other_oserror 98 "[Errno 98] Address already in use" (by decide)⟩

/-- Claim C5: for every file that exists under the served directory, a GET
request for its path returns status 200 with exactly the bytes of the
file. -/
theorem c5_existing_file (fs : FileSystem) (scriptFile reqPath : FsPath)
    (bytes : List Nat)
    (h : fs (DIRECTORY scriptFile ++ reqPath) = some bytes) :
    customHandlerGet scriptFile fs reqPath = ⟨200, bytes⟩ := by
  simp [customHandlerGet, handleGet, h]

/-- Witness for C5 on a one-file filesystem. -/
theorem c5_existing_file_witness :
    ((fun _ => some [104, 105]) : FileSystem)
        (DIRECTORY ["srv", "preview-server.py"] ++ ["index.html"])
        = some [104, 105] ∧
    customHandlerGet ["srv", "preview-server.py"]
        (fun _ => some [104, 105]) ["index.html"] = ⟨200, [104, 105]⟩ :=
  ⟨rfl,
    c5_existing_file (fun _ => some [104, 105]) ["srv", "preview-server.py"]
      ["index.html"] [104, 105] rfl⟩

/-- Claim C6: for every request whose path has no file under the served
directory, the server returns the standard not-found 404 response. -/
theorem c6_missing_file (fs : FileSystem) (scriptFile reqPath : FsPath)
    (h : fs (DIRECTORY scriptFile ++ reqPath) = none) :
    (customHandlerGet scriptFile fs reqPath).status = 404 := by
  simp [customHandlerGet, handleGet, h]

/-- Witness for C6 on the empty filesystem. -/
theorem c6_missing_file_witness :
    ((fun _ => none) : FileSystem)
        (DIRECTORY ["srv", "preview-server.py"] ++ ["missing.html"])
        = none ∧
    (customHandlerGet ["srv", "preview-server.py"] (fun _ => none)
        ["missing.html"]).status = 404 :=
  ⟨rfl,
    c6_missing_file (fun _ => none) ["srv", "preview-server.py"]
      ["missing.html"] rfl⟩

/-- Claim C7: the specific two-line address-in-use guidance is printed if
and only if the errno of the caught OSError equals 48; every other errno
yields the one-line generic message instead, and either way the process
exits with code 1. -/
theorem c7_guidance_iff_errno_48 (errno : Int) (msg : String) :
    (runMain (PyExc.osError errno msg)).exitCode = some 1 ∧
    ((runMain (PyExc.osError errno msg)).printed = [portInUseMsg, killHintMsg]
      ↔ errno = 48) := by
  by_cases h : errno = 48 <;> simp [runMain, osErrorLines, h]

/-- Witness for C7 evaluated at errno 48. -/
theorem c7_guidance_iff_errno_48_witness :
    (runMain (PyExc.osError 48 "msg")).exitCode = some 1 ∧
    ((runMain (PyExc.osError 48 "msg")).printed = [portInUseMsg, killHintMsg]
      ↔ (48 : Int) = 48) :=
  c7_guidance_iff_errno_48 48 "msg"

/-- Claim C8: an exception that is neither KeyboardInterrupt nor OSError
is caught by no handler in the program: it propagates out of main
uncaught, and neither handled exit path (code 0 or code 1) is taken. -/
theorem c8_other_exceptions_propagate (n : String) :
    (runMain (PyExc.otherExc n)).uncaughtExc = some (PyExc.otherExc n) ∧
    (runMain (PyExc.otherExc n)).exitCode = none :=
  ⟨rfl, rfl⟩

/-- Claim C9: the port and served directory are constants fixed at module
load: any two runs of the program, whatever their working directories and
command-line arguments, bind the same port PORT = 8080 and serve the same
directory DIRECTORY, the parent of the script file. -/
theorem c9_no_configurability (scriptFile cwd cwd2 : FsPath)
    (argv argv2 : List String) :
    mainConfig scriptFile cwd argv = mainConfig scriptFile cwd2 argv2 ∧
    (mainConfig scriptFile cwd argv).port = PORT ∧
    (mainConfig scriptFile cwd argv).directory = DIRECTORY scriptFile :=
  ⟨rfl, rfl, rfl⟩

end PreviewServer
